import Mathlib

/-
Verification of the nanoyunhu session / login core.

Shallow embedding of:
  src/utils/http.ts        (HttpResponse outcome classification)
  src/nanoYunHu/login.ts   (tryLogin email/phone loops, captcha, verification)
  src/nanoYunHu/tokenTest  (tokenTest, the identity-lookup validator)
  src/nanoYunHu/main.ts    (main startup credential flow)
  src/utils/wss.ts         (WssClient: heartbeat, reconnect, destroy, decoder)
  src/utils/id.ts          (bufferToId / generateDeviceId)

Network responses are abstracted as oracle streams `Nat → HttpResult T`:
each index is the response the `request` helper in http.ts returns for the
n-th HTTP attempt of a loop.  Interactive prompts are abstracted as string
parameters.  Logging and file-system side effects are not modelled.
-/

namespace NanoYunHu

/-- Outcome classification of one `request` call, mirroring the three
branches every retry loop in the source distinguishes on the
`HttpResponse` value from src/utils/http.ts:
`success` is `{success:true, data}`; `jsonError` is
`{success:false, isJson:true, error}` (error body carries a `msg`);
`transportError` is `{success:false, isJson:false, error:{message}}`
(network error, timeout, or non-JSON body). -/
inductive HttpResult (T : Type) where
  | success (data : T)
  | jsonError (msg : String)
  | transportError (message : String)

/-- Errors thrown by the bounded retry loops: `HttpRequestFailedOn5Error`
from src/types.ts, carrying the last failure message. -/
inductive RetryError where
  | httpRequestFailedOn5 (error : String)
deriving DecidableEq

/-- Result of leaving one of the login-endpoint retry loops in
src/nanoYunHu/login.ts without throwing: either the loop produced its
value, or the source executed `return login()` (re-entering interactive
mode selection; modelled as an exit carrying the logged failure message). -/
inductive LoopExit (α : Type) where
  | success (value : α)
  | modeSelection (msg : String)

-- ── response body shapes (src/types.ts) ─────────────────────────────────────

/-- EmailLogin response data (src/types.ts). -/
structure EmailLoginData where
  token : String
deriving DecidableEq

/-- EmailLogin response body: code 1 is the success sentinel. -/
structure EmailLogin where
  code : Int
  data : EmailLoginData
  msg : String
deriving DecidableEq

/-- PhoneLogin response data (src/types.ts). -/
structure PhoneLoginData where
  token : String
deriving DecidableEq

/-- PhoneLogin response body: code 1 is the success sentinel. -/
structure PhoneLogin where
  code : Int
  data : PhoneLoginData
  msg : String
deriving DecidableEq

/-- Captcha response data (src/types.ts): base64 image and captcha id. -/
structure CaptchaData where
  b64s : String
  id : String
deriving DecidableEq

/-- Captcha response body: code 1 is the success sentinel. -/
structure Captcha where
  code : Int
  data : CaptchaData
  msg : String
deriving DecidableEq

/-- MsgVerification response body (src/types.ts). -/
structure MsgVerification where
  code : Int
  msg : String
deriving DecidableEq

/-- The user part of a UserInfoWeb response (src/types.ts); only the
fields the embedded code reads (`userId`, `nickname`) are modelled. -/
structure UserInfoUser where
  userId : String
  nickname : String
deriving DecidableEq

/-- UserInfoWeb response data. -/
structure UserInfoData where
  user : UserInfoUser
deriving DecidableEq

/-- UserInfoWeb response body: code 1 is the success sentinel. -/
structure UserInfoWeb where
  code : Int
  data : UserInfoData
  msg : String
deriving DecidableEq

/-- Result type of tokenTest (src/nanoYunHu/tokenTest): `valid` is
`{success:true, userId, userName, token}`, `invalid` is
`{success:false, error}`. -/
inductive TokenTest where
  | valid (userId userName token : String)
  | invalid (error : String)
deriving DecidableEq

/-- InputCaptcha (login.ts): captcha id plus the operator's solution. -/
structure InputCaptcha where
  id : String
  captcha : String
deriving DecidableEq

/-- Verification (login.ts): result of the SMS-code issuance step. -/
inductive Verification where
  | ok
  | failure (error : String)
deriving DecidableEq

-- ── retry loops (src/nanoYunHu/login.ts) ────────────────────────────────────

/-- Email-login loop of tryLogin (login.ts lines 56-87).  `idx` indexes the
response stream, `count` is the source's retry counter.  `fuel` is the
termination device, kept equal to `5 - count` by the entry point; the
`fuel = 0` case is unreachable from the entry point because the loop
throws as soon as `count + 1 ≥ 5`.  On `{success, code=1}` the source
returns `tokenTest token`; this loop reports the token and the caller
composes tokenTest. -/
def emailGo (resp : Nat → HttpResult EmailLogin) :
    Nat → Nat → Nat → Except RetryError (LoopExit String)
  | idx, count, fuel =>
    match resp idx with
    | .success d =>
        if d.code = 1 then .ok (.success d.data.token)
        else .ok (.modeSelection d.msg)
    | .jsonError m => .ok (.modeSelection m)
    | .transportError m =>
        if count + 1 ≥ 5 then .error (.httpRequestFailedOn5 m)
        else
          match fuel with
          | 0 => .error (.httpRequestFailedOn5 m)
          | f + 1 => emailGo resp (idx + 1) (count + 1) f

/-- The email-login loop from its entry (`count = 0`). -/
def emailLoop (resp : Nat → HttpResult EmailLogin) :
    Except RetryError (LoopExit String) :=
  emailGo resp 0 0 5

/-- Phone verification-login loop of tryLogin (login.ts lines 102-131);
same shape as the email loop over the PhoneLogin body. -/
def phoneGo (resp : Nat → HttpResult PhoneLogin) :
    Nat → Nat → Nat → Except RetryError (LoopExit String)
  | idx, count, fuel =>
    match resp idx with
    | .success d =>
        if d.code = 1 then .ok (.success d.data.token)
        else .ok (.modeSelection d.msg)
    | .jsonError m => .ok (.modeSelection m)
    | .transportError m =>
        if count + 1 ≥ 5 then .error (.httpRequestFailedOn5 m)
        else
          match fuel with
          | 0 => .error (.httpRequestFailedOn5 m)
          | f + 1 => phoneGo resp (idx + 1) (count + 1) f

/-- The phone verification-login loop from its entry. -/
def phoneLoop (resp : Nat → HttpResult PhoneLogin) :
    Except RetryError (LoopExit String) :=
  phoneGo resp 0 0 5

/-- CAPTCHA-issuance loop (login.ts lines 143-177).  On success the source
writes the image, serves it, prompts the operator for the solution
(modelled by `sol`) and returns `{id, captcha}`.  Note that unlike the
email/phone loops, the application-rejection branch
(`response.success` with `code ≠ 1`) does NOT return: it sets `err`,
increments `count` and retries, exactly like a transport failure. -/
def captchaGo (resp : Nat → HttpResult Captcha) (sol : String) :
    Nat → Nat → Nat → Except RetryError InputCaptcha
  | idx, count, fuel =>
    match resp idx with
    | .success d =>
        if d.code = 1 then .ok { id := d.data.id, captcha := sol }
        else
          if count + 1 ≥ 5 then .error (.httpRequestFailedOn5 d.msg)
          else
            match fuel with
            | 0 => .error (.httpRequestFailedOn5 d.msg)
            | f + 1 => captchaGo resp sol (idx + 1) (count + 1) f
    | .jsonError m =>
        if count + 1 ≥ 5 then .error (.httpRequestFailedOn5 m)
        else
          match fuel with
          | 0 => .error (.httpRequestFailedOn5 m)
          | f + 1 => captchaGo resp sol (idx + 1) (count + 1) f
    | .transportError m =>
        if count + 1 ≥ 5 then .error (.httpRequestFailedOn5 m)
        else
          match fuel with
          | 0 => .error (.httpRequestFailedOn5 m)
          | f + 1 => captchaGo resp sol (idx + 1) (count + 1) f

/-- The CAPTCHA-issuance loop from its entry. -/
def captchaLoop (resp : Nat → HttpResult Captcha) (sol : String) :
    Except RetryError InputCaptcha :=
  captchaGo resp sol 0 0 5

/-- SMS verification-code issuance loop (login.ts lines 179-207).  On
success-sentinel it returns `{success:true}`; on application rejection or
JSON error it returns `{success:false, error}` immediately; only
transport failures consume a retry. -/
def verificationGo (resp : Nat → HttpResult MsgVerification) :
    Nat → Nat → Nat → Except RetryError Verification
  | idx, count, fuel =>
    match resp idx with
    | .success d =>
        if d.code = 1 then .ok .ok
        else .ok (.failure d.msg)
    | .jsonError m => .ok (.failure m)
    | .transportError m =>
        if count + 1 ≥ 5 then .error (.httpRequestFailedOn5 m)
        else
          match fuel with
          | 0 => .error (.httpRequestFailedOn5 m)
          | f + 1 => verificationGo resp (idx + 1) (count + 1) f

/-- The SMS verification loop from its entry. -/
def verificationLoop (resp : Nat → HttpResult MsgVerification) :
    Except RetryError Verification :=
  verificationGo resp 0 0 5

-- ── identity lookup (src/nanoYunHu/tokenTest, for-loop version) ─────────────

/-- Body of the tokenTest for-loop (`for attempt = 1..5`).  `attempt`
starts at 1; the stream is indexed by attempt.  `fuel = 5 - attempt`
drives termination; the `fuel = 0` case corresponds to the source's
unreachable throw after the loop. -/
def tokenTestGo (resp : Nat → HttpResult UserInfoWeb) (token : String) :
    Nat → Nat → Except RetryError TokenTest
  | attempt, fuel =>
    match resp attempt with
    | .success d =>
        if d.code = 1 then
          .ok (.valid d.data.user.userId d.data.user.nickname token)
        else .ok (.invalid d.msg)
    | .jsonError m => .ok (.invalid m)
    | .transportError m =>
        if attempt = 5 then .error (.httpRequestFailedOn5 m)
        else
          match fuel with
          | 0 => .error (.httpRequestFailedOn5 m)
          | f + 1 => tokenTestGo resp token (attempt + 1) f

/-- tokenTest from its entry (`attempt = 1`). -/
def tokenTest (resp : Nat → HttpResult UserInfoWeb) (token : String) :
    Except RetryError TokenTest :=
  tokenTestGo resp token 1 4

-- ── phone flow composition (login.ts lines 88-137) ──────────────────────────

/-- The phone branch of tryLogin: CAPTCHA issuance, SMS verification, then
the verification-login loop; on its success-sentinel the returned token
goes through tokenTest.  A `{success:false}` verification result logs and
executes `return login()` (the modeSelection exit).  `sol` is the
operator's CAPTCHA solution, streams are the per-endpoint responses. -/
def tryLoginPhone (capResp : Nat → HttpResult Captcha) (sol : String)
    (verResp : Nat → HttpResult MsgVerification)
    (phoneResp : Nat → HttpResult PhoneLogin)
    (idResp : Nat → HttpResult UserInfoWeb) :
    Except RetryError (LoopExit TokenTest) := do
  let _c ← captchaLoop capResp sol
  let v ← verificationLoop verResp
  match v with
  | .ok =>
      match ← phoneLoop phoneResp with
      | .success tok => do
          let t ← tokenTest idResp tok
          pure (.success t)
      | .modeSelection m => pure (.modeSelection m)
  | .failure e => pure (.modeSelection e)

-- ── startup credential flow (src/nanoYunHu/main.ts lines 17-52) ─────────────

/-- Errors main can throw: InvalidTokenError (main.ts) or a propagated
HttpRequestFailedOn5Error from tokenTest / login. -/
inductive MainError where
  | invalidToken
  | retry (e : RetryError)
deriving DecidableEq

/-- Observable outcome of one `main()` run (up to the point where the
WssClient is constructed): the accepted identity, the final value of
`appConfig.account.token`, the sequence of `persistConfig` calls (each
recording the token value being persisted), and whether `login()` was
invoked. -/
structure MainTrace where
  result : TokenTest
  cfgToken : Option String
  persists : List (Option String)
  loginCalled : Bool
deriving DecidableEq

/-- main() of src/nanoYunHu/main.ts (lines 17-52): with a stored token,
validate it via tokenTest; on invalid, delete the token, persist, and
re-run login(); without a stored token, run login() directly.  `idResp`
is the identity-lookup response stream, `loginResult` the outcome login()
would produce (the interactive login flow abstracted as an oracle). -/
def mainRun (cfgToken : Option String)
    (idResp : Nat → HttpResult UserInfoWeb)
    (loginResult : Except RetryError TokenTest) :
    Except MainError MainTrace :=
  match cfgToken with
  | some storedTok =>
      match tokenTest idResp storedTok with
      | .error e => .error (.retry e)
      | .ok testData =>
          match testData with
          | .valid _ _ _ =>
              -- success with a configured token: the guard
              -- `if (!appConfig.account.token)` is false, no write occurs
              .ok { result := testData, cfgToken := some storedTok,
                    persists := [], loginCalled := false }
          | .invalid _ =>
              -- configured token invalid: delete it, persist, re-login
              match loginResult with
              | .error e => .error (.retry e)
              | .ok td2 =>
                  match td2 with
                  | .valid _ _ tk2 =>
                      .ok { result := td2, cfgToken := some tk2,
                            persists := [none, some tk2], loginCalled := true }
                  | .invalid _ => .error .invalidToken
  | none =>
      match loginResult with
      | .error e => .error (.retry e)
      | .ok testData =>
          match testData with
          | .valid _ _ tk =>
              .ok { result := testData, cfgToken := some tk,
                    persists := [some tk], loginCalled := true }
          | .invalid _ => .error .invalidToken

-- ── decoded-message values (src/utils/wss.ts) ───────────────────────────────

/-- JS runtime values as seen by the message path of WssClient: objects
(`toObject` results and parsed JSON), strings, numbers, booleans, null,
arrays, and Node Buffers (`vBytes`).  Object fields are an association
list in insertion order. -/
inductive Val where
  | vNull
  | vBool (b : Bool)
  | vNum (n : Int)
  | vStr (s : String)
  | vArr (elems : List Val)
  | vObj (fields : List (String × Val))
  | vBytes (bytes : List Nat)

/-- Property lookup on a JS object value. -/
def getField : List (String × Val) → String → Option Val
  | [], _ => none
  | (k, v) :: rest, key => if k = key then some v else getField rest key

/-- The protobuf message types WssClient loads (wss.ts lines 237-245); the
`heartbeat_ack_info` type doubles as the generic envelope used by the
probe and the unknown-command fallback. -/
inductive SchemaId where
  | heartbeatAckInfo
  | pushMessage
  | draftInput
  | fileSendMessage
  | editMessage
deriving DecidableEq

/-- The decode functions of the five loaded protobuf types, abstracted as
total functions returning `none` where `type.decode(raw)` would throw,
and `some` of the `toObject` result otherwise. -/
structure Schemas where
  heartbeatAckDecode : List Nat → Option Val
  pushMessageDecode : List Nat → Option Val
  draftInputDecode : List Nat → Option Val
  fileSendDecode : List Nat → Option Val
  editMessageDecode : List Nat → Option Val

/-- Dispatch a SchemaId to its decode function. -/
def schemaDecode (sch : Schemas) : SchemaId → List Nat → Option Val
  | .heartbeatAckInfo => sch.heartbeatAckDecode
  | .pushMessage => sch.pushMessageDecode
  | .draftInput => sch.draftInputDecode
  | .fileSendMessage => sch.fileSendDecode
  | .editMessage => sch.editMessageDecode

/-- The static cmd → type dispatch table `cmdTypeMap` (wss.ts lines
325-338), as the JS object-literal key lookup. -/
def cmdTypeMap (c : String) : Option SchemaId :=
  List.lookup c
    [("heartbeat_ack", SchemaId.heartbeatAckInfo),
     ("heartbeat", SchemaId.heartbeatAckInfo),
     ("pong", SchemaId.heartbeatAckInfo),
     ("push_message", SchemaId.pushMessage),
     ("draft_input", SchemaId.draftInput),
     ("file_send_message", SchemaId.fileSendMessage),
     ("edit_message", SchemaId.editMessage)]

/-- probeCmd (wss.ts lines 342-359): decode with the envelope type
(`HeartbeatAckInfo`) and read `base.cmd`; any failure, a non-object
`base`, a non-string or empty `cmd` all yield `none` without raising. -/
def probeCmd (sch : Schemas) (raw : List Nat) : Option String :=
  match sch.heartbeatAckDecode raw with
  | none => none
  | some v =>
      match v with
      | .vObj fields =>
          match getField fields "base" with
          | some (.vObj bf) =>
              match getField bf "cmd" with
              | some (.vStr c) => if c = "" then none else some c
              | _ => none
          | _ => none
      | _ => none

/-- JS String.prototype.toLowerCase (ASCII range, which covers every key
of the dispatch table and the classification substrings). -/
def strToLower (s : String) : String :=
  ⟨s.data.map Char.toLower⟩

/-- The decode type decodeMessage settles on (wss.ts lines 372-380): the
table entry for the lowercased probed command, else the envelope type
(`HeartbeatAckInfo`), which is also used when the probe failed.  With the
protos loaded every getter is non-null, so the `??` fallback coincides
with the table result. -/
def chosenSchema (sch : Schemas) (raw : List Nat) : SchemaId :=
  match probeCmd sch raw with
  | some c => (cmdTypeMap (strToLower c)).getD .heartbeatAckInfo
  | none => .heartbeatAckInfo

/-- decodeMessage (wss.ts lines 362-397).  If the protos are not loaded it
returns the raw Buffer.  Otherwise: probe, dispatch, decode with the
chosen type; on decode failure try `JSON.parse(raw.toString("utf8"))`;
if that throws too, return `raw.toString("utf8")` (the UTF-8 text, not
the Buffer).  `jsonParse` and `toUtf8` abstract `JSON.parse` and
`Buffer.toString("utf8")`. -/
def decodeMessage (sch : Schemas) (protoLoaded : Bool)
    (jsonParse : String → Option Val) (toUtf8 : List Nat → String)
    (raw : List Nat) : Val :=
  if protoLoaded = false then .vBytes raw
  else
    match schemaDecode sch (chosenSchema sch raw) raw with
    | some v => v
    | none =>
        match jsonParse (toUtf8 raw) with
        | some j => j
        | none => .vStr (toUtf8 raw)

-- ── heartbeat-ack classification (wss.ts lines 399-414) ─────────────────────

/-- Is `sub` a leading segment of `l`?  (executable form of JS
String.startsWith over char lists). -/
def listStartsWith : List Char → List Char → Bool
  | [], _ => true
  | _ :: _, [] => false
  | a :: as, b :: bs => a = b && listStartsWith as bs

/-- Does `sub` occur contiguously inside `s`? -/
def containsSeq : List Char → List Char → Bool
  | sub, [] => sub.isEmpty
  | sub, c :: rest => listStartsWith sub (c :: rest) || containsSeq sub rest

/-- JS `s.includes(sub)`: substring containment. -/
def strIncludes (s sub : String) : Bool :=
  containsSeq sub.data s.data

/-- readCmd (wss.ts lines 399-408): a decoded value's command name is
`base.cmd` when the value is an object whose `base` field is an object
with a string `cmd`; anything else reads as null. -/
def readCmd (v : Val) : Option String :=
  match v with
  | .vObj fields =>
      match getField fields "base" with
      | some (.vObj bf) =>
          match getField bf "cmd" with
          | some (.vStr c) => some c
          | _ => none
      | _ => none
  | _ => none

/-- isHeartbeatAck (wss.ts lines 410-414): lowercase the command name; a
null or empty name is not classified; otherwise classify exactly when the
name contains "heartbeat" or "pong". -/
def isHeartbeatAck (v : Val) : Bool :=
  match readCmd v with
  | none => false
  | some c =>
      let lc := strToLower c
      if lc = "" then false
      else strIncludes lc "heartbeat" || strIncludes lc "pong"

-- ── WssClient state machine (src/utils/wss.ts) ──────────────────────────────

/-- readyState of the socket held in `this.ws` (CLOSING and CLOSED are
merged: neither is OPEN or CONNECTING, which are the only states the
source distinguishes). -/
inductive WsReady where
  | connecting
  | open
  | closed
deriving DecidableEq

/-- Decoder environment threaded into the message handler. -/
structure DecodeEnv where
  sch : Schemas
  jsonParse : String → Option Val
  toUtf8 : List Nat → String

/-- WssClient instance state (wss.ts lines 225-246).  Timers are modelled
by their armed flags (`heartbeatTimer !== null`, `reconnectTimer !==
null`); `ws = none` models `this.ws === null`.  The last three fields are
ghost counters instrumenting observable calls: heartbeat frames actually
passed to `ws.send`, invocations of `forceReconnect`, and entries into
`connect()` that created a socket. -/
structure WSt where
  destroyed : Bool
  heartbeatArmed : Bool
  reconnectPending : Bool
  ws : Option WsReady
  missed : Nat
  protoLoaded : Bool
  hbSent : Nat
  frCalls : Nat
  connectCalls : Nat
deriving DecidableEq

/-- maxMissedHeartbeatCount (wss.ts line 232). -/
def maxMissedHeartbeatCount : Nat := 2

/-- stopHeartbeat (wss.ts lines 316-321): clear the interval timer. -/
def stopHeartbeat (s : WSt) : WSt :=
  { s with heartbeatArmed := false }

/-- startHeartbeat (wss.ts lines 308-314): stop then arm the timer. -/
def startHeartbeat (s : WSt) : WSt :=
  { stopHeartbeat s with heartbeatArmed := true }

/-- scheduleReconnect (wss.ts lines 481-492): a no-op when a reconnect
timer is already pending or the client is destroyed. -/
def scheduleReconnect (s : WSt) : WSt :=
  if s.reconnectPending || s.destroyed then s
  else { s with reconnectPending := true }

/-- sendJson of a heartbeat frame (wss.ts lines 275-279): the frame is
written only when the socket exists and its readyState is OPEN. -/
def sendJsonHeartbeat (s : WSt) : WSt :=
  if s.ws = some .open then { s with hbSent := s.hbSent + 1 } else s

/-- forceReconnect (wss.ts lines 416-437): bail out if destroyed;
otherwise stop the heartbeat, zero the missed counter, then either
terminate a live socket (its close event later drives the reconnect) or
schedule the reconnect directly.  The ghost `frCalls` counts every
invocation. -/
def forceReconnect (s0 : WSt) : WSt :=
  let s := { s0 with frCalls := s0.frCalls + 1 }
  if s.destroyed then s
  else
    let s := stopHeartbeat s
    let s := { s with missed := 0 }
    match s.ws with
    | none => scheduleReconnect s
    | some st =>
        if st = .open || st = .connecting then { s with ws := some .closed }
        else scheduleReconnect s

/-- sendHeartbeat (wss.ts lines 293-306): send the frame, increment the
missed counter, and invoke forceReconnect when the counter reaches the
threshold. -/
def sendHeartbeat (s : WSt) : WSt :=
  let s := sendJsonHeartbeat s
  let s := { s with missed := s.missed + 1 }
  if s.missed ≥ maxMissedHeartbeatCount then forceReconnect s else s

/-- connect (wss.ts lines 440-478): throws when destroyed; otherwise loads
the protos, creates a socket (CONNECTING) and registers the handlers. -/
def connect (s : WSt) : Except String WSt :=
  if s.destroyed then .error "WssClient disposed"
  else .ok { s with protoLoaded := true, ws := some .connecting,
                    connectCalls := s.connectCalls + 1 }

/-- destroy (wss.ts lines 495-505): set the destroyed flag, stop the
heartbeat, cancel any pending reconnect timer, close and drop the
socket. -/
def destroy (s : WSt) : WSt :=
  let s := { s with destroyed := true }
  let s := stopHeartbeat s
  let s := { s with reconnectPending := false }
  { s with ws := none }

/-- The scheduled callbacks and socket events that drive the client: a
heartbeat-interval tick, the socket open / message / close / error
events, the reconnect-timer firing, an external `destroy()` call and an
external `connect()` call. -/
inductive Ev where
  | tick
  | openEv
  | msgEv (raw : List Nat)
  | closeEv
  | errorEv
  | reconnectFire
  | destroyEv
  | connectEv

/-- One scheduled callback.  Each timer event is guarded by its armed flag
(a cleared timer never fires); socket events are guarded by the presence
and readyState of the socket.  Handler bodies follow wss.ts lines
447-477 (connect's handlers), 486-491 (reconnect timer) and the methods
above. -/
def step (env : DecodeEnv) (s : WSt) : Ev → WSt
  | .tick => if s.heartbeatArmed then sendHeartbeat s else s
  | .openEv =>
      if s.ws = some .connecting then
        let s := { s with ws := some .open, missed := 0 }
        -- sendLogin precedes startHeartbeat (wss.ts lines 450-451)
        startHeartbeat s
      else s
  | .msgEv raw =>
      if s.ws = some .open then
        let d := decodeMessage env.sch s.protoLoaded env.jsonParse env.toUtf8 raw
        if isHeartbeatAck d then { s with missed := 0 } else s
      else s
  | .closeEv =>
      if s.ws.isSome then
        let s := { s with ws := some .closed }
        let s := stopHeartbeat s
        let s := { s with missed := 0 }
        if s.destroyed = false then scheduleReconnect s else s
      else s
  | .errorEv => s
  | .reconnectFire =>
      if s.reconnectPending then
        let s := { s with reconnectPending := false }
        match connect s with
        | .ok s2 => s2
        | .error _ => s  -- the rejection is caught and logged
      else s
  | .destroyEv => destroy s
  | .connectEv =>
      match connect s with
      | .ok s2 => s2
      | .error _ => s

/-- Run a sequence of scheduled callbacks. -/
def runEvents (env : DecodeEnv) (s : WSt) (evs : List Ev) : WSt :=
  evs.foldl (step env) s

-- ── device id derivation (src/utils/id.ts) ──────────────────────────────────

/-- CHARSET (id.ts line 32): the 36 lowercase alphanumerics. -/
def CHARSET : List Char := "abcdefghijklmnopqrstuvwxyz0123456789".data

/-- One pass of the inner loop of bufferToId (id.ts lines 46-51): long
division of the big-endian base-256 digit list by `CHARSET.length`,
starting from remainder `r`; returns the quotient digits and the final
remainder. -/
def divmodStep (r : Nat) : List Nat → List Nat × Nat
  | [] => ([], r)
  | b :: bs =>
      let val := r * 256 + b
      let p := divmodStep (val % CHARSET.length) bs
      (val / CHARSET.length :: p.1, p.2)

/-- The outer loop of bufferToId (id.ts lines 44-53): `n` more characters
to produce; each round divides the byte array by 36 (remainder starts at
0) and prepends `CHARSET[remainder]` to the accumulated result. -/
def bufferToIdGo : List Nat → Nat → List Char → List Char
  | _, 0, acc => acc
  | bytes, n + 1, acc =>
      let p := divmodStep 0 bytes
      bufferToIdGo p.1 n (CHARSET.getD p.2 'a' :: acc)

/-- bufferToId (id.ts lines 38-56) with its default length 10. -/
def bufferToId (buf : List Nat) (length : Nat := 10) : String :=
  ⟨bufferToIdGo buf length []⟩

/-- generateDeviceId (id.ts lines 61-75): SHA-256 of the machine
fingerprint, then bufferToId of the 32-byte digest.  The hash itself is
an external library call, so the digest bytes are taken as input. -/
def generateDeviceId (digest : List Nat) : String :=
  bufferToId digest

/-- The big-endian base-256 value of a byte list (the "big integer" the
id.ts comment refers to), continuing from accumulator `a`. -/
def beValFrom (a : Nat) (bs : List Nat) : Nat :=
  bs.foldl (fun acc b => acc * 256 + b) a

/-- The big-endian base-256 value of a byte list. -/
def beVal (bs : List Nat) : Nat :=
  beValFrom 0 bs

/-- The mathematical specification of the id characters: the last `n`
base-36 digits of `N`, most significant first, each rendered through
CHARSET. -/
def base36Chars (N : Nat) : Nat → List Char
  | 0 => []
  | n + 1 => base36Chars (N / 36) n ++ [CHARSET.getD (N % 36) 'a']

-- ── concrete fixtures for scenario instantiations ───────────────────────────

/-- Schemas whose decode functions all fail (the shape protobufjs takes on
any frame none of the loaded types can decode). -/
def noneSchemas : Schemas :=
  ⟨fun _ => none, fun _ => none, fun _ => none, fun _ => none, fun _ => none⟩

/-- A concrete model of `Buffer.toString("utf8")`, exact on ASCII bytes
(multi-byte sequences, which no theorem below exercises, map to the
replacement character as Node does for stray high bytes). -/
def asciiToUtf8 (bs : List Nat) : String :=
  ⟨bs.map (fun b => if b < 128 then Char.ofNat b else '�')⟩

/-- The envelope object a probe decode of a push frame yields. -/
def pushEnvelopeVal : Val :=
  .vObj [("base", .vObj [("cmd", .vStr "push_message")])]

/-- The full object the push_message schema yields on the same frame. -/
def pushFrameVal : Val :=
  .vObj [("base", .vObj [("cmd", .vStr "push_message")]), ("payload", .vStr "p")]

/-- Schemas for a correctly encoded push_message frame: the envelope type
extracts the command, the push_message type decodes the full message. -/
def pushSchemas : Schemas :=
  { heartbeatAckDecode := fun _ => some pushEnvelopeVal,
    pushMessageDecode := fun _ => some pushFrameVal,
    draftInputDecode := fun _ => none,
    fileSendDecode := fun _ => none,
    editMessageDecode := fun _ => none }

/-- A decoder environment in which every decode fails. -/
def trivialEnv : DecodeEnv :=
  ⟨noneSchemas, fun _ => none, asciiToUtf8⟩

/-- A WssClient state right after the open handler ran: heartbeat armed,
socket OPEN, counters zeroed, protos loaded. -/
def openState : WSt :=
  { destroyed := false, heartbeatArmed := true, reconnectPending := false,
    ws := some .open, missed := 0, protoLoaded := true,
    hbSent := 0, frCalls := 0, connectCalls := 0 }

/-- CAPTCHA response stream: an application rejection (code 0) on the
first attempt, then a success-sentinel response. -/
def capRejectThenOk : Nat → HttpResult Captcha := fun i =>
  if i = 0 then .success { code := 0, data := { b64s := "", id := "i0" }, msg := "captcha rejected" }
  else .success { code := 1, data := { b64s := "img", id := "i1" }, msg := "ok" }

/-- SMS verification stream answering with the success sentinel. -/
def verOk : Nat → HttpResult MsgVerification := fun _ =>
  .success { code := 1, msg := "sent" }

/-- Phone verification-login stream answering success with token "T". -/
def phoneOkT : Nat → HttpResult PhoneLogin := fun _ =>
  .success { code := 1, data := { token := "T" }, msg := "ok" }

/-- Identity-lookup stream accepting the token with user u1/n1. -/
def idOkU1 : Nat → HttpResult UserInfoWeb := fun _ =>
  .success { code := 1, data := { user := { userId := "u1", nickname := "n1" } }, msg := "ok" }

/-- SMS verification stream rejecting the request (code 0). -/
def verReject : Nat → HttpResult MsgVerification := fun _ =>
  .success { code := 0, msg := "sms denied" }

-- ════════════════════════════════════════════════════════════════════════════
-- Theorems
-- ════════════════════════════════════════════════════════════════════════════

-- ── device id: long-division correctness (id.ts) ────────────────────────────

theorem charset_length : CHARSET.length = 36 := rfl

theorem divmodStep_length (bs : List Nat) : ∀ r, ((divmodStep r bs).1).length = bs.length := by
  induction bs with
  | nil => intro r; simp [divmodStep]
  | cons b bs ih => intro r; simp [divmodStep, ih]

theorem beValFrom_nil (a : Nat) : beValFrom a [] = a := rfl

theorem beValFrom_cons (a b : Nat) (bs : List Nat) :
    beValFrom a (b :: bs) = beValFrom (a * 256 + b) bs := rfl

theorem beVal_cons (b : Nat) (bs : List Nat) : beVal (b :: bs) = beValFrom b bs := by
  simp [beVal, beValFrom_cons]

theorem beValFrom_split (l : List Nat) : ∀ a, beValFrom a l = a * 256 ^ l.length + beVal l := by
  induction l with
  | nil => intro a; simp [beValFrom_nil, beVal]
  | cons b bs ih =>
      intro a
      rw [beValFrom_cons, ih, beVal_cons, ih b]
      simp only [List.length_cons, pow_succ]
      ring

theorem divmodStep_spec (bs : List Nat) : ∀ r, r < 36 →
    beVal (divmodStep r bs).1 * 36 + (divmodStep r bs).2 = beValFrom r bs
    ∧ (divmodStep r bs).2 < 36 := by
  induction bs with
  | nil => intro r hr; simpa [divmodStep, beVal, beValFrom_nil] using hr
  | cons b bs ih =>
      intro r hr
      have h36 : (0 : Nat) < 36 := by norm_num
      obtain ⟨ihEq, ihLt⟩ := ih ((r * 256 + b) % 36) (Nat.mod_lt _ h36)
      constructor
      · show beVal ((r * 256 + b) / CHARSET.length
            :: (divmodStep ((r * 256 + b) % CHARSET.length) bs).1) * 36
            + (divmodStep ((r * 256 + b) % CHARSET.length) bs).2
            = beValFrom r (b :: bs)
        rw [charset_length, beVal_cons, beValFrom_split, divmodStep_length,
            beValFrom_cons]
        rw [beValFrom_split bs ((r * 256 + b))]
        rw [beValFrom_split bs (((r * 256 + b) % 36))] at ihEq
        set val := r * 256 + b with hval
        set Q := beVal (divmodStep (val % 36) bs).1 with hQ
        set R := (divmodStep (val % 36) bs).2 with hR
        set X := (256 : Nat) ^ bs.length with hX
        have e : 36 * (val / 36) + val % 36 = val := Nat.div_add_mod val 36
        calc (val / 36 * X + Q) * 36 + R
            = val / 36 * 36 * X + (Q * 36 + R) := by ring
          _ = val / 36 * 36 * X + (val % 36 * X + beVal bs) := by rw [ihEq]
          _ = (36 * (val / 36) + val % 36) * X + beVal bs := by ring
          _ = val * X + beVal bs := by rw [e]
      · show (divmodStep ((r * 256 + b) % CHARSET.length) bs).2 < 36
        rw [charset_length]
        exact ihLt

theorem divmodStep_div_mod (bs : List Nat) (r : Nat) (hr : r < 36) :
    beVal (divmodStep r bs).1 = beValFrom r bs / 36
    ∧ (divmodStep r bs).2 = beValFrom r bs % 36 := by
  obtain ⟨hEq, hLt⟩ := divmodStep_spec bs r hr
  omega

theorem bufferToIdGo_eq : ∀ (n : Nat) (bytes : List Nat) (acc : List Char),
    bufferToIdGo bytes n acc = base36Chars (beVal bytes) n ++ acc := by
  intro n
  induction n with
  | zero => intro bytes acc; simp [bufferToIdGo, base36Chars]
  | succ n ih =>
      intro bytes acc
      have h0 : (0 : Nat) < 36 := by norm_num
      obtain ⟨hdiv, hmod⟩ := divmodStep_div_mod bytes 0 h0
      have hbe : beValFrom 0 bytes = beVal bytes := rfl
      rw [hbe] at hdiv hmod
      show bufferToIdGo (divmodStep 0 bytes).1 n
          (CHARSET.getD (divmodStep 0 bytes).2 'a' :: acc)
          = base36Chars (beVal bytes) (n + 1) ++ acc
      rw [ih, hdiv, hmod]
      show base36Chars (beVal bytes / 36) n ++ (CHARSET.getD (beVal bytes % 36) 'a' :: acc)
          = (base36Chars (beVal bytes / 36) n ++ [CHARSET.getD (beVal bytes % 36) 'a']) ++ acc
      rw [List.append_assoc]
      rfl

theorem base36Chars_length : ∀ (n N : Nat), (base36Chars N n).length = n := by
  intro n
  induction n with
  | zero => intro N; simp [base36Chars]
  | succ n ih => intro N; simp [base36Chars, ih]

theorem getD_mem_charset (i : Nat) : CHARSET.getD i 'a' ∈ CHARSET := by
  by_cases h : i < CHARSET.length
  · rw [List.getD_eq_getElem _ _ h]
    exact List.getElem_mem h
  · rw [List.getD_eq_default _ _ (Nat.le_of_not_lt h)]
    decide

theorem base36Chars_mem : ∀ (n N : Nat) (c : Char), c ∈ base36Chars N n → c ∈ CHARSET := by
  intro n
  induction n with
  | zero => intro N c hc; simp [base36Chars] at hc
  | succ n ih =>
      intro N c hc
      simp only [base36Chars, List.mem_append, List.mem_singleton] at hc
      rcases hc with hc | hc
      · exact ih _ _ hc
      · rw [hc]; exact getD_mem_charset _

/-- C10: for every input buffer (in particular every 32-byte SHA-256
digest), bufferToId returns a string of exactly 10 characters, each drawn
from the 36-character set CHARSET, whose characters are exactly the last
ten base-36 digits of the buffer's big-endian integer value (the repeated
big-integer modulus); hence generateDeviceId always produces a
10-character lowercase-alphanumeric id. -/
theorem bufferToId_deviceId_spec (buf : List Nat) :
    (bufferToId buf 10).length = 10
    ∧ (∀ c ∈ (bufferToId buf 10).data, c ∈ CHARSET)
    ∧ (bufferToId buf 10).data = base36Chars (beVal buf) 10
    ∧ generateDeviceId buf = bufferToId buf 10 := by
  have hdata : (bufferToId buf 10).data = base36Chars (beVal buf) 10 := by
    show bufferToIdGo buf 10 [] = base36Chars (beVal buf) 10
    rw [bufferToIdGo_eq]
    simp
  refine ⟨?_, ?_, hdata, rfl⟩
  · show (bufferToId buf 10).data.length = 10
    rw [hdata, base36Chars_length]
  · intro c hc
    rw [hdata] at hc
    exact base36Chars_mem _ _ _ hc

-- ── C8: tokenTest sentinel handling ─────────────────────────────────────────

/-- C8: for every token, tokenTest treats a response that arrives without
the success sentinel (code not 1) as Invalid, returning a failure result
carrying the response message immediately (at any attempt, so without
retrying and without raising); on a success-sentinel response it returns
the userId, nickname and token extracted from the response. -/
theorem tokenTest_sentinel (resp : Nat → HttpResult UserInfoWeb)
    (token : String) (attempt fuel : Nat) (d : UserInfoWeb)
    (h : resp attempt = .success d) :
    (d.code ≠ 1 → tokenTestGo resp token attempt fuel = .ok (.invalid d.msg))
    ∧ (d.code = 1 → tokenTestGo resp token attempt fuel =
        .ok (.valid d.data.user.userId d.data.user.nickname token))
    ∧ tokenTest resp token = tokenTestGo resp token 1 4 := by
  refine ⟨fun hc => ?_, fun hc => ?_, rfl⟩
  · simp [tokenTestGo, h, hc]
  · simp [tokenTestGo, h, hc]

theorem tokenTest_sentinel_witness :
    idOkU1 1 = .success { code := 1, data := { user := { userId := "u1", nickname := "n1" } }, msg := "ok" }
    ∧ tokenTestGo idOkU1 "T" 1 4 = .ok (.valid "u1" "n1" "T") :=
  ⟨rfl, (tokenTest_sentinel idOkU1 "T" 1 4 _ rfl).2.1 rfl⟩

-- ── C9: startup credential lifecycle (main.ts) ──────────────────────────────

/-- C9: at startup with a stored token, an identity lookup answering code 0
makes main delete the persisted token, persist the config, and re-trigger
the login flow (whose result is then adopted); an identity lookup
answering code 1 with user data yields that identity with no write to
storage and the stored credential unchanged. -/
theorem main_startup_token (t msg u1 n1 u2 n2 tk2 : String) :
    (mainRun (some t)
        (fun _ => .success { code := 0, data := { user := { userId := u1, nickname := n1 } }, msg := msg })
        (.ok (.valid u2 n2 tk2))
      = .ok { result := .valid u2 n2 tk2, cfgToken := some tk2,
              persists := [none, some tk2], loginCalled := true })
    ∧ ∀ loginResult, mainRun (some t)
        (fun _ => .success { code := 1, data := { user := { userId := u1, nickname := n1 } }, msg := msg })
        loginResult
      = .ok { result := .valid u1 n1 t, cfgToken := some t,
              persists := [], loginCalled := false } :=
  ⟨rfl, fun _ => rfl⟩

-- ── C3: destroy is terminal ─────────────────────────────────────────────────

theorem step_destroyed_fixed (env : DecodeEnv) :
    ∀ (s : WSt) (e : Ev), s.destroyed = true → s.heartbeatArmed = false →
      s.reconnectPending = false → s.ws = none → step env s e = s := by
  rintro ⟨d, hb, rp, w, m, pl, hs, fc, cc⟩ e h1 h2 h3 h4
  dsimp only at h1 h2 h3 h4
  subst h1 h2 h3 h4
  cases e <;>
    simp [step, destroy, stopHeartbeat, scheduleReconnect, connect,
      sendHeartbeat, sendJsonHeartbeat, forceReconnect]

theorem runEvents_destroyed_fixed (env : DecodeEnv) (s : WSt)
    (h1 : s.destroyed = true) (h2 : s.heartbeatArmed = false)
    (h3 : s.reconnectPending = false) (h4 : s.ws = none) :
    ∀ evs : List Ev, runEvents env s evs = s := by
  intro evs
  induction evs with
  | nil => rfl
  | cons e evs ih =>
      show runEvents env (step env s e) evs = s
      rw [step_destroyed_fixed env s e h1 h2 h3 h4, ih]

/-- C3: destroy() is valid from any state: it sets the destroyed flag,
stops the heartbeat timer, cancels any pending reconnect timer and drops
the socket; afterwards the state is frozen under every possible scheduled
callback (so no reconnect is ever scheduled or started and the pending
reconnect timer can never call connect again), scheduleReconnect is a
no-op, and connect() throws. -/
theorem destroy_terminal (env : DecodeEnv) (s : WSt) (evs : List Ev) :
    (destroy s).destroyed = true
    ∧ (destroy s).heartbeatArmed = false
    ∧ (destroy s).reconnectPending = false
    ∧ (destroy s).ws = none
    ∧ scheduleReconnect (destroy s) = destroy s
    ∧ connect (destroy s) = .error "WssClient disposed"
    ∧ runEvents env (destroy s) evs = destroy s
    ∧ (runEvents env (destroy s) evs).connectCalls = (destroy s).connectCalls
    ∧ (runEvents env (destroy s) evs).reconnectPending = false := by
  have hrun : runEvents env (destroy s) evs = destroy s :=
    runEvents_destroyed_fixed env (destroy s) rfl rfl rfl rfl evs
  refine ⟨rfl, rfl, rfl, rfl, ?_, ?_, hrun, by rw [hrun], by rw [hrun]; rfl⟩
  · simp [scheduleReconnect, destroy, stopHeartbeat]
  · simp [connect, destroy, stopHeartbeat]

-- ── C2: heartbeat breach forces exactly one reconnect ───────────────────────

/-- C2: from a live open session (heartbeat armed, socket OPEN, missed
counter 0), a heartbeat tick sends a frame and increments the missed
counter without reconnecting; the second consecutive tick with no
intervening acknowledgment sends a frame, reaches the threshold 2, and
issues exactly one forceReconnect, which stops the heartbeat timer and
resets the counter to 0 — so a further tick is a no-op and no second
forceReconnect can follow from the same breach. -/
theorem heartbeat_breach_single_forceReconnect (env : DecodeEnv) (s : WSt)
    (h1 : s.heartbeatArmed = true) (h2 : s.ws = some .open)
    (h3 : s.missed = 0) (h4 : s.destroyed = false) :
    (runEvents env s [.tick]).hbSent = s.hbSent + 1
    ∧ (runEvents env s [.tick]).missed = 1
    ∧ (runEvents env s [.tick]).frCalls = s.frCalls
    ∧ (runEvents env s [.tick]).heartbeatArmed = true
    ∧ (runEvents env s [.tick, .tick]).hbSent = s.hbSent + 2
    ∧ (runEvents env s [.tick, .tick]).frCalls = s.frCalls + 1
    ∧ (runEvents env s [.tick, .tick]).heartbeatArmed = false
    ∧ (runEvents env s [.tick, .tick]).missed = 0
    ∧ runEvents env s [.tick, .tick, .tick] = runEvents env s [.tick, .tick] := by
  obtain ⟨d, hb, rp, w, m, pl, hs, fc, cc⟩ := s
  dsimp only at h1 h2 h3 h4
  subst h1 h2 h3 h4
  exact ⟨rfl, rfl, rfl, rfl, rfl, rfl, rfl, rfl, rfl⟩

theorem heartbeat_breach_witness :
    (runEvents trivialEnv openState [.tick, .tick]).frCalls = openState.frCalls + 1
    ∧ runEvents trivialEnv openState [.tick, .tick, .tick]
        = runEvents trivialEnv openState [.tick, .tick] :=
  ⟨(heartbeat_breach_single_forceReconnect trivialEnv openState rfl rfl rfl rfl).2.2.2.2.2.1,
   (heartbeat_breach_single_forceReconnect trivialEnv openState rfl rfl rfl rfl).2.2.2.2.2.2.2.2⟩

-- ── C4: decoder degradation chain ───────────────────────────────────────────

/-- C4 (amended): decodeMessage is total and never raises: with the protos
not loaded it returns the raw bytes; otherwise it returns the chosen
schema's decode result when that succeeds, else the JSON parse of the
UTF-8 text when that succeeds, else the UTF-8-decoded text of the bytes
(not the raw bytes themselves). -/
theorem decodeMessage_degrades (sch : Schemas) (jsonParse : String → Option Val)
    (toUtf8 : List Nat → String) (raw : List Nat) :
    (decodeMessage sch false jsonParse toUtf8 raw = .vBytes raw)
    ∧ (∀ v, schemaDecode sch (chosenSchema sch raw) raw = some v →
        decodeMessage sch true jsonParse toUtf8 raw = v)
    ∧ (∀ j, schemaDecode sch (chosenSchema sch raw) raw = none →
        jsonParse (toUtf8 raw) = some j →
        decodeMessage sch true jsonParse toUtf8 raw = j)
    ∧ (schemaDecode sch (chosenSchema sch raw) raw = none →
        jsonParse (toUtf8 raw) = none →
        decodeMessage sch true jsonParse toUtf8 raw = .vStr (toUtf8 raw)) := by
  refine ⟨rfl, fun v hv => ?_, fun j hs hj => ?_, fun hs hj => ?_⟩ <;>
    simp [decodeMessage, *]

theorem decodeMessage_degrades_witness :
    decodeMessage noneSchemas true (fun _ => some .vNull) asciiToUtf8 [104] = .vNull :=
  (decodeMessage_degrades noneSchemas (fun _ => some .vNull) asciiToUtf8 [104]).2.2.1
    .vNull rfl rfl

/-- Counterexample to C4 as stated: on bytes [97, 98] with both the chosen
schema and the JSON parse failing, decodeMessage returns the UTF-8 text
"ab", which is not the raw bytes verbatim. -/
theorem decodeMessage_not_raw_fallback :
    decodeMessage noneSchemas true (fun _ => none) asciiToUtf8 [97, 98] = .vStr "ab"
    ∧ decodeMessage noneSchemas true (fun _ => none) asciiToUtf8 [97, 98]
        ≠ .vBytes [97, 98] := by
  refine ⟨rfl, ?_⟩
  intro h
  rw [show decodeMessage noneSchemas true (fun _ => none) asciiToUtf8 [97, 98]
      = .vStr "ab" from rfl] at h
  exact Val.noConfusion h

-- ── C5: command dispatch table ──────────────────────────────────────────────

/-- C5: every command name in the static dispatch table maps to its schema
(heartbeat_ack / heartbeat / pong to the heartbeat-ack type; push_message,
draft_input, file_send_message, edit_message to theirs); a correctly
encoded frame of a table command decodes with the matching schema; a
probed command absent from the table (looked up lowercased) falls back to
the generic envelope schema, whose probe-stage success guarantees a
decoded envelope value without raising. -/
theorem dispatch_table_decode :
    cmdTypeMap "heartbeat_ack" = some .heartbeatAckInfo
    ∧ cmdTypeMap "heartbeat" = some .heartbeatAckInfo
    ∧ cmdTypeMap "pong" = some .heartbeatAckInfo
    ∧ cmdTypeMap "push_message" = some .pushMessage
    ∧ cmdTypeMap "draft_input" = some .draftInput
    ∧ cmdTypeMap "file_send_message" = some .fileSendMessage
    ∧ cmdTypeMap "edit_message" = some .editMessage
    ∧ (∀ sch jsonParse toUtf8 raw c t v, probeCmd sch raw = some c →
        cmdTypeMap (strToLower c) = some t → schemaDecode sch t raw = some v →
        decodeMessage sch true jsonParse toUtf8 raw = v)
    ∧ (∀ sch raw c, probeCmd sch raw = some c →
        cmdTypeMap (strToLower c) = none → chosenSchema sch raw = .heartbeatAckInfo)
    ∧ (∀ sch jsonParse toUtf8 raw c v, probeCmd sch raw = some c →
        cmdTypeMap (strToLower c) = none → sch.heartbeatAckDecode raw = some v →
        decodeMessage sch true jsonParse toUtf8 raw = v) := by
  refine ⟨rfl, rfl, rfl, rfl, rfl, rfl, rfl, ?_, ?_, ?_⟩
  · intro sch jsonParse toUtf8 raw c t v h1 h2 h3
    simp [decodeMessage, chosenSchema, h1, h2, h3]
  · intro sch raw c h1 h2
    simp [chosenSchema, h1, h2]
  · intro sch jsonParse toUtf8 raw c v h1 h2 h3
    simp [decodeMessage, chosenSchema, schemaDecode, h1, h2, h3]

theorem dispatch_table_decode_witness :
    probeCmd pushSchemas [1] = some "push_message"
    ∧ cmdTypeMap (strToLower "push_message") = some .pushMessage
    ∧ schemaDecode pushSchemas .pushMessage [1] = some pushFrameVal
    ∧ decodeMessage pushSchemas true (fun _ => none) asciiToUtf8 [1] = pushFrameVal :=
  ⟨rfl, rfl, rfl,
    dispatch_table_decode.2.2.2.2.2.2.2.1 pushSchemas (fun _ => none) asciiToUtf8
      [1] "push_message" .pushMessage pushFrameVal rfl rfl rfl⟩

-- ── C6: heartbeat-ack classification ────────────────────────────────────────

/-- C6: a decoded value is classified as a heartbeat acknowledgment iff its
envelope command name base.cmd, lowercased, contains "heartbeat" or
"pong" (e.g. cmd "PONG" is classified); and on the message path the
missed counter is reset to 0 exactly when the classifier — applied
uniformly to whatever value decodeMessage produced, from any of its
branches — accepts the decoded value. -/
theorem heartbeat_ack_classification :
    (∀ v : Val, isHeartbeatAck v = true ↔
      ∃ c, readCmd v = some c ∧
        (strIncludes (strToLower c) "heartbeat" = true
          ∨ strIncludes (strToLower c) "pong" = true))
    ∧ (∀ (env : DecodeEnv) (s : WSt) (raw : List Nat), s.ws = some .open →
        (step env s (.msgEv raw)).missed =
          if isHeartbeatAck
              (decodeMessage env.sch s.protoLoaded env.jsonParse env.toUtf8 raw)
          then 0 else s.missed)
    ∧ isHeartbeatAck (.vObj [("base", .vObj [("cmd", .vStr "PONG")])]) = true := by
  refine ⟨fun v => ?_, fun env s raw h => ?_, by decide⟩
  · cases hv : readCmd v with
    | none => simp [isHeartbeatAck, hv]
    | some c =>
        simp only [isHeartbeatAck, hv, Option.some.injEq]
        constructor
        · intro ht
          split at ht
          · exact Bool.noConfusion ht
          · exact ⟨c, rfl, by simpa [Bool.or_eq_true] using ht⟩
        · rintro ⟨c1, rfl, hinc⟩
          split
          · rename_i he
            rw [he] at hinc
            rcases hinc with hx | hx <;> exact absurd hx (by decide)
          · rw [Bool.or_eq_true]
            exact hinc
  · have hs : step env s (.msgEv raw) =
        if isHeartbeatAck
            (decodeMessage env.sch s.protoLoaded env.jsonParse env.toUtf8 raw)
        then { s with missed := 0 } else s := by
      simp [step, h]
    rw [hs]
    split <;> rfl

theorem heartbeat_ack_classification_witness :
    openState.ws = some WsReady.open
    ∧ (step trivialEnv openState (.msgEv [0])).missed =
        (if isHeartbeatAck
            (decodeMessage trivialEnv.sch openState.protoLoaded
              trivialEnv.jsonParse trivialEnv.toUtf8 [0])
         then 0 else openState.missed) :=
  ⟨rfl, heartbeat_ack_classification.2.1 trivialEnv openState [0] rfl⟩

-- ── C1: bounded retry loops ─────────────────────────────────────────────────

/-- C1 (amended): for the email-login, phone verification-login,
SMS-verification and identity-lookup loops, a success or an application
rejection (response without the success sentinel) terminates the loop
immediately at any retry count, and after exactly 5 consecutive transport
failures — and not before: 4 failures followed by a success return the
success — the loop raises HttpRequestFailedOn5Error carrying the last
cause.  The CAPTCHA-issuance loop terminates immediately only on success:
an application rejection there consumes a retry like a transport failure,
and 5 consecutive rejections also raise HttpRequestFailedOn5Error. -/
theorem retry_loops_bounded :
    (∀ (resp : Nat → HttpResult EmailLogin) idx count fuel d,
        resp idx = .success d → d.code ≠ 1 →
        emailGo resp idx count fuel = .ok (.modeSelection d.msg))
    ∧ (∀ (resp : Nat → HttpResult EmailLogin) idx count fuel d,
        resp idx = .success d → d.code = 1 →
        emailGo resp idx count fuel = .ok (.success d.data.token))
    ∧ (∀ m : Nat → String,
        emailLoop (fun i => .transportError (m i))
          = .error (.httpRequestFailedOn5 (m 4)))
    ∧ (∀ (m : Nat → String) (tok msg1 : String),
        emailLoop (fun i => if i < 4 then .transportError (m i)
          else .success { code := 1, data := { token := tok }, msg := msg1 })
          = .ok (.success tok))
    ∧ (∀ (resp : Nat → HttpResult PhoneLogin) idx count fuel d,
        resp idx = .success d → d.code ≠ 1 →
        phoneGo resp idx count fuel = .ok (.modeSelection d.msg))
    ∧ (∀ (resp : Nat → HttpResult PhoneLogin) idx count fuel d,
        resp idx = .success d → d.code = 1 →
        phoneGo resp idx count fuel = .ok (.success d.data.token))
    ∧ (∀ m : Nat → String,
        phoneLoop (fun i => .transportError (m i))
          = .error (.httpRequestFailedOn5 (m 4)))
    ∧ (∀ (m : Nat → String) (tok msg1 : String),
        phoneLoop (fun i => if i < 4 then .transportError (m i)
          else .success { code := 1, data := { token := tok }, msg := msg1 })
          = .ok (.success tok))
    ∧ (∀ (resp : Nat → HttpResult MsgVerification) idx count fuel d,
        resp idx = .success d → d.code ≠ 1 →
        verificationGo resp idx count fuel = .ok (.failure d.msg))
    ∧ (∀ (resp : Nat → HttpResult MsgVerification) idx count fuel d,
        resp idx = .success d → d.code = 1 →
        verificationGo resp idx count fuel = .ok .ok)
    ∧ (∀ m : Nat → String,
        verificationLoop (fun i => .transportError (m i))
          = .error (.httpRequestFailedOn5 (m 4)))
    ∧ (∀ (m : Nat → String) (msg1 : String),
        verificationLoop (fun i => if i < 4 then .transportError (m i)
          else .success { code := 1, msg := msg1 }) = .ok .ok)
    ∧ (∀ (resp : Nat → HttpResult UserInfoWeb) tok attempt fuel d,
        resp attempt = .success d → d.code ≠ 1 →
        tokenTestGo resp tok attempt fuel = .ok (.invalid d.msg))
    ∧ (∀ (m : Nat → String) (tok : String),
        tokenTest (fun i => .transportError (m i)) tok
          = .error (.httpRequestFailedOn5 (m 5)))
    ∧ (∀ (m : Nat → String) (tok u nick msg1 : String),
        tokenTest (fun i => if i < 5 then .transportError (m i)
          else .success { code := 1, data := { user := { userId := u, nickname := nick } }, msg := msg1 }) tok
          = .ok (.valid u nick tok))
    ∧ (∀ (resp : Nat → HttpResult Captcha) sol idx count fuel d,
        resp idx = .success d → d.code = 1 →
        captchaGo resp sol idx count fuel = .ok { id := d.data.id, captcha := sol })
    ∧ (∀ (resp : Nat → HttpResult Captcha) sol idx count fuel d,
        resp idx = .success d → d.code ≠ 1 → count + 1 < 5 →
        captchaGo resp sol idx count (fuel + 1)
          = captchaGo resp sol (idx + 1) (count + 1) fuel)
    ∧ (∀ (sol : String) (m : Nat → String),
        captchaLoop (fun i => .transportError (m i)) sol
          = .error (.httpRequestFailedOn5 (m 4)))
    ∧ (∀ (sol b idv : String) (m : Nat → String),
        captchaLoop (fun i => .success { code := 0, data := { b64s := b, id := idv }, msg := m i }) sol
          = .error (.httpRequestFailedOn5 (m 4)))
    ∧ (∀ (sol b idv msg1 : String) (m : Nat → String),
        captchaLoop (fun i => if i < 4 then .transportError (m i)
          else .success { code := 1, data := { b64s := b, id := idv }, msg := msg1 }) sol
          = .ok { id := idv, captcha := sol }) := by
  refine ⟨?_, ?_, fun m => rfl, fun m tok msg1 => rfl,
          ?_, ?_, fun m => rfl, fun m tok msg1 => rfl,
          ?_, ?_, fun m => rfl, fun m msg1 => rfl,
          ?_, fun m tok => rfl, fun m tok u nick msg1 => rfl,
          ?_, ?_, fun sol m => rfl, fun sol b idv m => rfl,
          fun sol b idv msg1 m => rfl⟩
  · intro resp idx count fuel d h hc
    simp [emailGo, h, hc]
  · intro resp idx count fuel d h hc
    simp [emailGo, h, hc]
  · intro resp idx count fuel d h hc
    simp [phoneGo, h, hc]
  · intro resp idx count fuel d h hc
    simp [phoneGo, h, hc]
  · intro resp idx count fuel d h hc
    simp [verificationGo, h, hc]
  · intro resp idx count fuel d h hc
    simp [verificationGo, h, hc]
  · intro resp tok attempt fuel d h hc
    simp [tokenTestGo, h, hc]
  · intro resp sol idx count fuel d h hc
    simp [captchaGo, h, hc]
  · intro resp sol idx count fuel d h hc hcount
    have hn : ¬ (5 ≤ count + 1) := by omega
    simp [captchaGo, h, hc, hn]

theorem retry_loops_bounded_witness :
    (fun _ : Nat =>
        (HttpResult.success { code := 0, data := { token := "T" }, msg := "no" }
          : HttpResult EmailLogin)) 0
      = .success { code := 0, data := { token := "T" }, msg := "no" }
    ∧ emailGo (fun _ => .success { code := 0, data := { token := "T" }, msg := "no" }) 0 0 5
      = .ok (.modeSelection "no") :=
  ⟨rfl, retry_loops_bounded.1
    (fun _ => .success { code := 0, data := { token := "T" }, msg := "no" })
    0 0 5 _ rfl (by decide)⟩

/-- Counterexample to C1 as stated: in the CAPTCHA-issuance loop an
application rejection (code 0, a response that did arrive) does not
terminate the loop without consuming a retry; five consecutive rejections
raise HttpRequestFailedOn5Error even though no transport failure ever
occurred. -/
theorem captcha_rejection_consumes_retries :
    captchaLoop
      (fun _ => .success { code := 0, data := { b64s := "", id := "x" }, msg := "denied" }) "s"
      = .error (.httpRequestFailedOn5 "denied") := rfl

-- ── C7: phone-flow rejection handling ───────────────────────────────────────

/-- C7 (amended): in the phone flow, an application rejection at the SMS
verification step aborts the flow and returns control to mode selection;
but at the CAPTCHA-issuance step an application rejection does not abort:
it consumes a retry like a transport failure (the loop re-requests a
fresh CAPTCHA), and five consecutive rejections raise
HttpRequestFailedOn5Error. -/
theorem phone_flow_rejection (capResp : Nat → HttpResult Captcha) (sol : String)
    (verResp : Nat → HttpResult MsgVerification)
    (phoneResp : Nat → HttpResult PhoneLogin)
    (idResp : Nat → HttpResult UserInfoWeb)
    (c : InputCaptcha) (d : MsgVerification)
    (hcap : captchaLoop capResp sol = .ok c)
    (hver : verResp 0 = .success d) (hd : d.code ≠ 1) :
    tryLoginPhone capResp sol verResp phoneResp idResp = .ok (.modeSelection d.msg)
    ∧ (∀ (resp : Nat → HttpResult Captcha) idx count fuel (e : Captcha),
        resp idx = .success e → e.code ≠ 1 → count + 1 < 5 →
        captchaGo resp sol idx count (fuel + 1)
          = captchaGo resp sol (idx + 1) (count + 1) fuel)
    ∧ (∀ (m : Nat → String) (b idv : String),
        captchaLoop (fun i => .success { code := 0, data := { b64s := b, id := idv }, msg := m i }) sol
          = .error (.httpRequestFailedOn5 (m 4))) := by
  have hv2 : verificationLoop verResp = .ok (.failure d.msg) := by
    simp [verificationLoop, verificationGo, hver, hd]
  refine ⟨?_, ?_, fun m b idv => rfl⟩
  · simp only [tryLoginPhone, hcap, hv2]
    rfl
  · intro resp idx count fuel e h hc hcount
    have hn : ¬ (5 ≤ count + 1) := by omega
    simp [captchaGo, h, hc, hn]

theorem phone_flow_rejection_witness :
    tryLoginPhone capRejectThenOk "sol" verReject phoneOkT idOkU1
      = .ok (.modeSelection "sms denied") :=
  (phone_flow_rejection capRejectThenOk "sol" verReject phoneOkT idOkU1
    { id := "i1", captcha := "sol" } { code := 0, msg := "sms denied" }
    rfl rfl (by decide)).1

/-- Counterexample to C7 as stated: with an application rejection on the
first CAPTCHA request, the phone flow does not return to mode selection:
the CAPTCHA loop retries, obtains a second CAPTCHA, and the flow runs to
completion with a validated identity. -/
theorem captcha_rejection_flow_continues :
    tryLoginPhone capRejectThenOk "sol" verOk phoneOkT idOkU1
      = .ok (.success (.valid "u1" "n1" "T")) := rfl

end NanoYunHu
